/-
Verification of the observer_mcp analytical tool layer.

This file gives a shallow embedding, in Lean 4, of the pure computational
parts of the observer_mcp package (response envelopes, the tool_handler
decorator, the events / logs / metrics / analysis / discovery tools), and
proves or refutes the frozen claims about them.

Modelling conventions:
- Python floats are modelled as exact rationals (ℚ); numpy mean/std are the
  population mean and standard deviation.  Conditions of the form
  `x < c * std` are stated square-root-free via the equivalent comparison of
  squares (std = sqrt variance, both sides nonnegative), so everything stays
  computable and decidable.
- Python datetimes are modelled as rational epoch seconds; `datetime.min`
  becomes the bottom element of `WithBot ℚ`.
- Python `None` becomes `Option.none`; Python truthiness of strings and
  numbers (`if x:`) is modelled explicitly (`= ""`, `= 0` checks).
- Fallible bodies wrapped by the tool handler are values of
  `Except PyExc (ToolResponse α)`.
- Wall-clock readings (`datetime.now()`) are inputs of the embedded
  functions (`elapsedMs`, `nowIso`, `now`, `cutoff`).
- Dict-valued `metadata` is an association list; string keys that occur in
  the code become constructors of `MetaKey` so lookups compute definitionally.
-/
import Mathlib

/- The batteries implementations of the rational-number operations are
marked irreducible, which blocks elaborator-side evaluation; restoring the
default reducibility lets `decide` and `rfl` evaluate the embedded
functions on concrete inputs. -/
unseal Rat.mul Rat.add Rat.sub Rat.inv

namespace ObserverMCP

/-! ### Response envelope (models/responses.py) -/

/-- Status of tool execution (`ToolStatus` in models/responses.py).
`partialResult` renders as the wire value "partial". -/
inductive ToolStatus where
  | success
  | partialResult
  | error
deriving DecidableEq

/-- Keys that appear in envelope metadata dicts.  String keys of the source
become constructors so that lookups reduce definitionally; `param` covers
the echoed query parameters. -/
inductive MetaKey where
  | executionTimeMs
  | timestampKey
  | errorType
  | param (name : String)
deriving DecidableEq

/-- Metadata values: strings or integers (execution time in ms). -/
inductive MetaVal where
  | s (v : String)
  | i (v : ℤ)
deriving DecidableEq

/-- Association-list lookup for metadata (first match wins, as in a Python
dict read). -/
def metaLookup (k : MetaKey) : List (MetaKey × MetaVal) → Option MetaVal
  | [] => none
  | p :: rest => if p.1 = k then some p.2 else metaLookup k rest

/-- The standardized response envelope (`ToolResponse` in
models/responses.py).  `result` is `none` for Python `None`. -/
structure ToolResponse (α : Type) where
  status : ToolStatus
  result : Option α
  error : Option String
  warnings : List String
  metadata : List (MetaKey × MetaVal)
deriving DecidableEq

/-- `ToolResponse.success` classmethod: status SUCCESS, `error` unset,
`warnings` and `metadata` default to empty when the caller passes `None`. -/
def ToolResponse.mkSuccess {α : Type} (result : Option α)
    (metadata : Option (List (MetaKey × MetaVal)))
    (warnings : Option (List String)) : ToolResponse α :=
  { status := ToolStatus.success
    result := result
    error := none
    warnings := warnings.getD []
    metadata := metadata.getD [] }

/-- `ToolResponse.partial` classmethod: status PARTIAL, `error` unset,
`warnings` required. -/
def ToolResponse.mkPartialResp {α : Type} (result : Option α)
    (warnings : List String)
    (metadata : Option (List (MetaKey × MetaVal))) : ToolResponse α :=
  { status := ToolStatus.partialResult
    result := result
    error := none
    warnings := warnings
    metadata := metadata.getD [] }

/-- `ToolResponse.error` classmethod: status ERROR, `result = None`; the
`error_type`, when truthy (`if error_type:` — false for `None` and `""`),
is stored in the metadata dict under key "error_type". -/
def ToolResponse.mkError {α : Type} (errorMessage : String)
    (errorTy : Option String)
    (metadata : Option (List (MetaKey × MetaVal))) : ToolResponse α :=
  let meta := metadata.getD []
  let meta :=
    match errorTy with
    | some t => if t = "" then meta else meta ++ [(MetaKey.errorType, MetaVal.s t)]
    | none => meta
  { status := ToolStatus.error
    result := none
    error := some errorMessage
    warnings := []
    metadata := meta }

/-- `add_execution_metadata`: extends a metadata dict with
`execution_time_ms` and `timestamp`.  The elapsed milliseconds and the ISO
timestamp are wall-clock readings, hence inputs of the model. -/
def addExecutionMetadata (metadata : List (MetaKey × MetaVal))
    (elapsedMs : ℤ) (nowIso : String) : List (MetaKey × MetaVal) :=
  metadata ++ [(MetaKey.executionTimeMs, MetaVal.i elapsedMs),
               (MetaKey.timestampKey, MetaVal.s nowIso)]

/-! ### Tool handler (tools/base.py) -/

/-- Exceptions a tool body can raise, by dynamic type.  `k8sNotFound` is the
`K8sNotFoundError` subclass of `K8sClientError`; `promQuery` is the
`PrometheusQueryError` subclass of `PrometheusClientError`; `otherExc`
carries the Python type name and message of any other exception. -/
inductive PyExc where
  | k8sNotFound (msg : String)
  | k8sClient (msg : String)
  | promQuery (msg : String)
  | promClient (msg : String)
  | otherExc (tyName : String) (msg : String)
deriving DecidableEq

/-- The `error_type` tag the `tool_handler` decorator attaches for each
exception class (the subclass clauses come first in the source, so the
dynamic type decides the tag). -/
def handlerErrorType : PyExc → String
  | PyExc.k8sNotFound _ => "NotFoundError"
  | PyExc.k8sClient _ => "KubernetesError"
  | PyExc.promQuery _ => "PrometheusQueryError"
  | PyExc.promClient _ => "PrometheusError"
  | PyExc.otherExc tyName _ => tyName

/-- The `error_message` the `tool_handler` decorator uses: `str(e)` for the
four client exception classes, `f"Unexpected error: {e}"` otherwise. -/
def handlerMessage : PyExc → String
  | PyExc.k8sNotFound msg => msg
  | PyExc.k8sClient msg => msg
  | PyExc.promQuery msg => msg
  | PyExc.promClient msg => msg
  | PyExc.otherExc _ msg => "Unexpected error: " ++ msg

/-- The `tool_handler` decorator: on a normal return it injects execution
metadata unless `execution_time_ms` is already present; on any raised
exception it returns an error envelope with the translated tag and message.
Totality of this function is the model of "no exception propagates". -/
def toolHandler {α : Type} (body : Except PyExc (ToolResponse α))
    (elapsedMs : ℤ) (nowIso : String) : ToolResponse α :=
  match body with
  | Except.ok r =>
      if (metaLookup MetaKey.executionTimeMs r.metadata).isSome then r
      else { r with metadata := addExecutionMetadata r.metadata elapsedMs nowIso }
  | Except.error e =>
      ToolResponse.mkError (handlerMessage e) (some (handlerErrorType e))
        (some (addExecutionMetadata [] elapsedMs nowIso))

/-- `truncate_logs` from tools/base.py: keep at most `maxLines` lines,
keeping the last ones.  Python `lines[-max_lines:]` is the whole list when
`max_lines = 0`, which the first branch of the `if` mirrors. -/
def truncateLogs (logs : String) (maxLines : ℕ) : String × Bool :=
  let lines := logs.splitOn "\n"
  if lines.length ≤ maxLines then (logs, false)
  else
    let kept := if maxLines = 0 then lines else lines.drop (lines.length - maxLines)
    (String.intercalate "\n" kept, true)

/-! ### Statistics helpers (numpy calls, in exact rational arithmetic) -/

/-- `np.mean`: sum divided by length (0 for the empty list, which the code
never relies on except through the NaN case modelled separately). -/
def pyMean (l : List ℚ) : ℚ := l.sum / l.length

/-- `np.std` squared: the population variance.  The standard deviation
itself is irrational in general, so every comparison against it is stated
via this square (see the individual definitions). -/
def pyVariance (l : List ℚ) : ℚ :=
  (l.map (fun v => (v - pyMean l) ^ 2)).sum / l.length

/-! ### Resource trend tool (tools/metrics.py, get_resource_trends) -/

/-- `TrendDirection` enum from models/metrics.py. -/
inductive TrendDirection where
  | increasing
  | decreasing
  | stable
  | volatile
deriving DecidableEq

/-- Mean of the first quarter of samples: `np.mean(values[: len//4])`.
When `len // 4 = 0`, the slice is empty and numpy yields NaN, modelled as
`none`. -/
def firstQuarterMean (values : List ℚ) : Option ℚ :=
  let q := values.length / 4
  if q = 0 then none else some (pyMean (values.take q))

/-- Mean of the last-quarter slice:
`np.mean(values_array[-len(values_array) // 4 :])`.  Unary minus binds
tighter than floor division in Python, so the start index is
`(-n) // 4 = -⌈n/4⌉`: the slice is the last ⌈n/4⌉ samples (in ℕ,
`⌈n/4⌉ = (n + 3) / 4`), one sample even when `n < 4`.  (The program
computes this value for every series, but only consults it when the
first-quarter slice is nonempty, i.e. `n ≥ 4`; the model calls it only
there.) -/
def lastQuarterMean (values : List ℚ) : ℚ :=
  pyMean (values.drop (values.length - (values.length + 3) / 4))

/-- `change_percent` of get_resource_trends.  `none` models the NaN that
arises when the first-quarter slice is empty (NaN == 0 is false in Python,
so the code then computes `(last - NaN)/NaN`, again NaN). -/
def changePercent (values : List ℚ) : Option ℚ :=
  match firstQuarterMean values with
  | none => none
  | some fq =>
      if fq = 0 then some (if lastQuarterMean values = 0 then 0 else 100)
      else some ((lastQuarterMean values - fq) / fq * 100)

/-- The volatility test `cv > 0.5` with `cv = std/avg if avg > 0 else 0`.
For `avg > 0`, `std/avg > 1/2` iff `2·std > avg` iff `4·var > avg²`
(both sides of the squaring are nonnegative); for `avg ≤ 0` the code uses
`cv = 0`, which is not `> 0.5`. -/
def coefficientOfVariationHigh (values : List ℚ) : Prop :=
  0 < pyMean values ∧ (pyMean values) ^ 2 < 4 * pyVariance values

instance (values : List ℚ) : Decidable (coefficientOfVariationHigh values) :=
  inferInstanceAs (Decidable (_ ∧ _))

/-- `trend_direction` of get_resource_trends: the directional
classification from `change_percent` (every comparison with NaN is false in
Python, so a NaN change falls through to DECREASING), overridden to
VOLATILE when the coefficient of variation exceeds 0.5. -/
def trendDirection (values : List ℚ) : TrendDirection :=
  let base :=
    match changePercent values with
    | some c =>
        if |c| < 10 then TrendDirection.stable
        else if 0 < c then TrendDirection.increasing
        else TrendDirection.decreasing
    | none => TrendDirection.decreasing
  if coefficientOfVariationHigh values then TrendDirection.volatile else base

/-- Spec-side rendering of the directional change, following the words of
the spec: compare the mean of the first quarter of samples to the mean of
the last quarter (meaningful when both quarter slices are nonempty, i.e.
at least 4 samples).  Since a quarter of `n` samples is not integral for
`n` not divisible by 4, the slice lengths are the program's: the first
⌊n/4⌋ and the last ⌈n/4⌉ samples — identical exact quarters when 4 ∣ n.
The zero-baseline conventions 0 and 100 follow the code since the spec
does not address a zero baseline.  Used to compare the code's
`changePercent` against the spec's description. -/
def specChangePercent (values : List ℚ) : ℚ :=
  let fq := pyMean (values.take (values.length / 4))
  let lq := pyMean (values.drop (values.length - (values.length + 3) / 4))
  if fq = 0 then (if lq = 0 then 0 else 100) else (lq - fq) / fq * 100

/-- The spike test `value > mean + 2·std_dev`: equivalently `mean < value`
and `(value - mean)² > 4·var` (the right-hand side `2·std` is
nonnegative). -/
def isSpikeValue (avg varv v : ℚ) : Bool :=
  decide (avg < v) && decide (4 * varv < (v - avg) ^ 2)

/-- `np.where(values_array > spike_threshold)[0]`: the indices of the spike
samples, in increasing order. -/
def spikeIndices (values : List ℚ) : List ℕ :=
  (List.range values.length).filter
    (fun i => isSpikeValue (pyMean values) (pyVariance values) (values.getD i 0))

/-- `spike_times = [timestamps[i] for i in spike_indices if i < len(timestamps)]`. -/
def spikeTimesAll (values timestamps : List ℚ) : List ℚ :=
  ((spikeIndices values).filter (fun i => decide (i < timestamps.length))).map
    (fun i => timestamps.getD i 0)

/-- `spike_count = len(spike_times)` (counted before the report cap). -/
def spikeCount (values timestamps : List ℚ) : ℕ :=
  (spikeTimesAll values timestamps).length

/-- `spike_times=spike_times[:10]`: the reported spike timestamps, capped
to the first 10. -/
def spikeTimesReported (values timestamps : List ℚ) : List ℚ :=
  (spikeTimesAll values timestamps).take 10

/-- The fields of the `ResourceTrend` record that the claims are about
(the remaining fields — average, percentiles, unit label, rounded change
percent — are numeric presentation of the same sample list and are not
restated here). -/
structure TrendRecord where
  direction : TrendDirection
  spikeCountField : ℕ
  spikeTimes : List ℚ
deriving DecidableEq

/-- The statistical core of `get_resource_trends`, after the range query
has produced `results[0]["values"]`: a list of (timestamp, value) samples
where `none` stands for a "NaN" string sample.  `values` keeps the
non-NaN values only, `timestamps` keeps every timestamp — this index
mismatch under NaN is the code's own.  The two early `partial` returns
carry no trend (`result = some none`); otherwise a successful envelope
carries the trend record. -/
def getResourceTrends (samples : List (ℚ × Option ℚ)) :
    ToolResponse (Option TrendRecord) :=
  if samples.length = 0 then
    ToolResponse.mkPartialResp (some none)
      ["No metric data found. The deployment may not exist or has no pods."]
      none
  else
    let values := samples.filterMap (fun s => s.2)
    let timestamps := samples.map (fun s => s.1)
    if values.length < 2 then
      ToolResponse.mkPartialResp (some none)
        ["Need at least 2 data points for trend analysis."]
        none
    else
      ToolResponse.mkSuccess
        (some (some { direction := trendDirection values
                      spikeCountField := spikeCount values timestamps
                      spikeTimes := spikeTimesReported values timestamps }))
        none none

/-! ### Recent events tool (tools/health.py, get_recent_events, composed
with the sort done in K8sClient.list_events) -/

/-- A cluster event as the events pipeline sees it: optional last/event
timestamps (epoch seconds) and the `type` string ("Warning"/"Normal"). -/
structure KEvent where
  lastTimestamp : Option ℚ
  eventTime : Option ℚ
  etype : String
deriving DecidableEq

/-- Sort key of `list_events`:
`e.last_timestamp or e.event_time or datetime.min`; `datetime.min` is the
bottom element. -/
def eventSortKey (e : KEvent) : WithBot ℚ :=
  match e.lastTimestamp with
  | some t => (t : WithBot ℚ)
  | none =>
      match e.eventTime with
      | some t => (t : WithBot ℚ)
      | none => ⊥

/-- Descending comparison on the sort key (`sort(key=..., reverse=True)`). -/
def eventDescLE (a b : KEvent) : Prop := eventSortKey b ≤ eventSortKey a

instance : DecidableRel eventDescLE := fun a b =>
  inferInstanceAs (Decidable (eventSortKey b ≤ eventSortKey a))

instance : IsTotal KEvent eventDescLE :=
  ⟨fun a b => le_total (eventSortKey b) (eventSortKey a)⟩

instance : IsTrans KEvent eventDescLE :=
  ⟨fun _ _ _ hab hbc => le_trans hbc hab⟩

/-- `event.last_timestamp or event.event_time`, used both as the window
filter time and as the reported `last_seen` (whose final `datetime.now()`
fallback never fires for events that pass the window filter). -/
def eventWindowTime (e : KEvent) : Option ℚ :=
  match e.lastTimestamp with
  | some t => some t
  | none => e.eventTime

/-- The window filter `if event_time and event_time >= cutoff_time`. -/
def keepInWindow (cutoff : ℚ) (e : KEvent) : Bool :=
  match eventWindowTime e with
  | some t => decide (cutoff ≤ t)
  | none => false

/-- The fields of an `EventInfo` the claims are about. -/
structure EventInfo where
  lastSeen : ℚ
  isWarning : Bool
deriving DecidableEq

/-- The result payload of get_recent_events. -/
structure EventsResult where
  events : List EventInfo
  totalCount : ℕ
  warningCount : ℕ
  truncated : Bool
deriving DecidableEq

/-- The truncation warning string of get_recent_events. -/
def eventsTruncationWarning (maxEvents : ℕ) : String :=
  "Results truncated to " ++ toString maxEvents ++
    " events. Use narrower time_window or namespace filter."

/-- Sort-then-filter stage of the events pipeline: `list_events` returns
the events sorted descending by `last_timestamp or event_time or
datetime.min` (Python's sort is stable; `List.insertionSort` is stable as
well), and get_recent_events keeps those inside the time window. -/
def eventsMatched (events : List KEvent) (cutoff : ℚ) : List KEvent :=
  (List.insertionSort eventDescLE events).filter (keepInWindow cutoff)

/-- Conversion of one kept event to the reported `EventInfo` fields:
`last_seen = last_timestamp or event_time or datetime.now()`. -/
def toEventInfo (now : ℚ) (e : KEvent) : EventInfo :=
  { lastSeen := (eventWindowTime e).getD now
    isWarning := decide (e.etype = "Warning") }

/-- The reported event list: the matched events truncated to `maxEvents`
(`settings.max_events`), converted to `EventInfo` records. -/
def recentEventInfos (events : List KEvent) (cutoff now : ℚ)
    (maxEvents : ℕ) : List EventInfo :=
  ((eventsMatched events cutoff).take maxEvents).map (toEventInfo now)

/-- get_recent_events composed with the `list_events` client call it makes:
sort descending, filter by the window cutoff, truncate to `maxEvents`,
convert, and assemble the envelope (PARTIAL plus a warning when
truncated). -/
def getRecentEvents (events : List KEvent) (cutoff now : ℚ)
    (maxEvents : ℕ) : ToolResponse EventsResult :=
  let truncated : Bool := decide (maxEvents < (eventsMatched events cutoff).length)
  let infos := recentEventInfos events cutoff now maxEvents
  { status := if truncated then ToolStatus.partialResult else ToolStatus.success
    result := some
      { events := infos
        totalCount := infos.length
        warningCount := (infos.filter (fun i => i.isWarning)).length
        truncated := truncated }
    error := none
    warnings := if truncated then [eventsTruncationWarning maxEvents] else []
    metadata := [] }

/-- A concrete sample series with eleven spikes: ones at positions 0–9 and
55 among forty-five zeros.  Its mean is 11/56 and its variance 495/3136,
so `4·var = 1980/3136 < (45/56)² = 2025/3136`: every 1 is a spike. -/
def manySpikesValues : List ℚ :=
  List.replicate 10 1 ++ List.replicate 45 0 ++ [1]

/-- Ascending timestamps 0, 1, …, 55 for `manySpikesValues`. -/
def manySpikesTimes : List ℚ := (List.range 56).map (fun i => (i : ℚ))

set_option maxRecDepth 10000

/-! ### Container logs tool (tools/health.py, get_container_logs) -/

/-- A single quote character, used by the Python repr of a string list. -/
def singleQuote : String := String.singleton (Char.ofNat 39)

/-- Python repr of one string element: the name wrapped in single quotes
(names without quotes or backslashes, as container names are). -/
def pyQuoted (s : String) : String := singleQuote ++ s ++ singleQuote

/-- The element rendering inside Python `str(list_of_str)`. -/
def pyStrListBody : List String → String
  | [] => ""
  | [x] => pyQuoted x
  | x :: y :: rest => pyQuoted x ++ ", " ++ pyStrListBody (y :: rest)

/-- Python `str(containers)` for a list of container-name strings,
as interpolated by the f-string of get_container_logs. -/
def pyStrList (names : List String) : String :=
  "[" ++ pyStrListBody names ++ "]"

/-- The error message of the multiple-containers branch of
get_container_logs. -/
def multiContainersMessage (names : List String) : String :=
  "Pod has multiple containers: " ++ pyStrList names ++
    ". Please specify container_name."

/-- Substring predicate on the character lists of two strings. -/
def strContains (sub s : String) : Prop :=
  ∃ a b : List Char, s.data = a ++ sub.data ++ b

/-- The result payload of get_container_logs. -/
structure LogsResult where
  logs : String
  lineCount : ℕ
  truncated : Bool
  podName : String
  containerName : String
deriving DecidableEq

/-- The truncation warning of get_container_logs (the source quotes the
parameter name in single quotes). -/
def logsTruncationWarning (maxLines : ℕ) : String :=
  "Logs truncated to " ++ toString maxLines ++ " lines. Use " ++
    pyQuoted "since" ++ " parameter to narrow the time range."

/-- The tail of get_container_logs once a container name is resolved:
fetch (the fetched text is the `rawLogs` input), truncate to `maxLines`,
count lines (`len(logs.split("\n")) if logs else 0` — 0 for the falsy
empty string), and assemble the envelope. -/
def logsResponse (podName containerName rawLogs : String)
    (maxLines : ℕ) : ToolResponse LogsResult :=
  let res := truncateLogs rawLogs maxLines
  let lineCount := if res.1 = "" then 0 else (res.1.splitOn "\n").length
  { status := if res.2 then ToolStatus.partialResult else ToolStatus.success
    result := some
      { logs := res.1
        lineCount := lineCount
        truncated := res.2
        podName := podName
        containerName := containerName }
    error := none
    warnings := if res.2 then [logsTruncationWarning maxLines] else []
    metadata := [] }

/-- get_container_logs (undecorated body; the decorator of C1 adds the
execution metadata afterwards).  `containerNameArg` is the caller-supplied
container name, where Python treats both `None` and `""` as "not given";
`podContainers` is `[c.name for c in pod.spec.containers]` of the pod
fetched when no name is given; `rawLogs` is what the log fetch returns for
the resolved container; `maxLogLines` is `settings.max_log_lines`.  A pod
reported with zero containers would raise IndexError at
`pod.spec.containers[0]`, which the decorator would translate; that
envelope is produced here directly so the composed behavior stays total. -/
def getContainerLogs (podName : String) (containerNameArg : Option String)
    (podContainers : List String) (rawLogs : String)
    (tailLines maxLogLines : ℕ) : ToolResponse LogsResult :=
  let maxLines := min tailLines (maxLogLines * 5)
  let given : Option String :=
    match containerNameArg with
    | some c => if c = "" then none else some c
    | none => none
  match given with
  | some c => logsResponse podName c rawLogs maxLines
  | none =>
      if 1 < podContainers.length then
        ToolResponse.mkError (multiContainersMessage podContainers)
          (some "MultipleContainersError") none
      else
        match podContainers.head? with
        | some c => logsResponse podName c rawLogs maxLines
        | none =>
            ToolResponse.mkError "Unexpected error: list index out of range"
              (some "IndexError") none

/-! ### Current resource usage tool (tools/metrics.py,
get_current_resource_usage): the percent-of-limit fields -/

/-- Least-significant-digit rounding helper: round half to even on ℚ,
the exact-arithmetic counterpart of Python round. -/
def pyRoundHalfEven (q : ℚ) : ℤ :=
  let f := ⌊q⌋
  let r := q - f
  if r < 1 / 2 then f
  else if 1 / 2 < r then f + 1
  else if f % 2 = 0 then f else f + 1

/-- Python `round(q, 1)` in exact arithmetic. -/
def pyRound1 (q : ℚ) : ℚ := (pyRoundHalfEven (q * 10) : ℚ) / 10

/-- The percent computation of get_current_resource_usage:
`percent = (usage / limit) * 100 if limit and limit > 0 else None`
(Python truthiness makes a 0.0 limit fall to `None` as well). -/
def percentOfLimit (usage : ℚ) (limit : Option ℚ) : Option ℚ :=
  match limit with
  | some l => if 0 < l then some (usage / l * 100) else none
  | none => none

/-- The stored `cpu_usage_percent` / `memory_usage_percent` field:
`round(percent, 1) if percent else None` — Python truthiness again, so a
computed percent of exactly 0.0 is stored as `None`. -/
def percentOfLimitField (usage : ℚ) (limit : Option ℚ) : Option ℚ :=
  match percentOfLimit usage limit with
  | some p => if p = 0 then none else some (pyRound1 p)
  | none => none

/-! ### Restart-pattern analysis (tools/analysis.py,
analyze_restart_patterns) -/

/-- `restart_rate = total_restarts / hours if hours > 0 else 0`, with
`hours = lookback_seconds / 3600`. -/
def restartRatePerHour (totalRestarts : ℕ) (lookbackSeconds : ℚ) : ℚ :=
  let hours := lookbackSeconds / 3600
  if 0 < hours then (totalRestarts : ℚ) / hours else 0

/-- The severity ladder of analyze_restart_patterns. -/
def restartSeverity (totalRestarts : ℕ) (lookbackSeconds : ℚ) : String :=
  if totalRestarts = 0 then "none"
  else if restartRatePerHour totalRestarts lookbackSeconds < 1 / 2 then "low"
  else if restartRatePerHour totalRestarts lookbackSeconds < 2 then "medium"
  else if restartRatePerHour totalRestarts lookbackSeconds < 6 then "high"
  else "critical"

/-- The three inner pattern labels of analyze_restart_patterns (the
periodic label also reports the mean interval; the claims only concern
which label, so the payload is dropped). -/
inductive RestartPatternKind where
  | periodic
  | escalating
  | random
deriving DecidableEq

/-- The consecutive differences of a timestamp list:
`intervals[i] = t[i+1] - t[i]`. -/
def interRestartIntervals (ts : List ℚ) : List ℚ :=
  List.zipWith (fun a b => a - b) ts.tail ts

/-- `pattern_detected` of analyze_restart_patterns: stays `None` unless at
least 3 restart timestamps are in the window, and the classification over
inter-restart intervals only runs with at least 4.  The periodic test
`std_interval < mean_interval * 0.3` is stated square-root-free: with
`m ≥ 0` it holds iff `0 < m` and `var < (0.3·m)²`, i.e. `100·var < 9·m²`.
The escalating test is `intervals[-1] < intervals[0] * 0.5`. -/
def patternDetected (restartTimes : List ℚ) : Option RestartPatternKind :=
  if 3 ≤ restartTimes.length then
    let sorted := List.insertionSort (fun a b : ℚ => a ≤ b) restartTimes
    if 4 ≤ restartTimes.length then
      let intervals := interRestartIntervals sorted
      let m := pyMean intervals
      let v := pyVariance intervals
      if 0 < m ∧ 100 * v < 9 * m ^ 2 then some RestartPatternKind.periodic
      else if intervals.getLastD 0 < intervals.headD 0 * (1 / 2) then
        some RestartPatternKind.escalating
      else some RestartPatternKind.random
    else none
  else none

/-! ### Namespace summary (tools/discovery.py, get_namespace_summary) -/

/-- A pod as the namespace summary sees it: its phase string and the
restart counts of its container statuses (an absent or empty
`container_statuses` contributes no restarts either way). -/
structure NsPod where
  phase : String
  containerRestarts : List ℕ
deriving DecidableEq

/-- `running_pods`: pods whose phase is "Running". -/
def runningPods (pods : List NsPod) : ℕ :=
  pods.countP (fun p => decide (p.phase = "Running"))

/-- `total_restarts`: restart counts summed across all container statuses. -/
def nsTotalRestarts (pods : List NsPod) : ℕ :=
  (pods.map (fun p => p.containerRestarts.sum)).sum

/-- `health_score` as computed by get_namespace_summary (the packaging into
the summary record rounds this to two decimals; the computation itself is
modelled).  `0.05` is the literal five-percent penalty per restart. -/
def healthScore (pods : List NsPod) : ℚ :=
  if 0 < pods.length then
    let runningFraction := (runningPods pods : ℚ) / (pods.length : ℚ)
    let restartPenalty := min 1 ((nsTotalRestarts pods : ℚ) * (1 / 20))
    max 0 (runningFraction - restartPenalty)
  else 1

/-! ### Theorems -/

/-- C1: for every exception raised by a tool body wrapped in `tool_handler`
(the typed cluster/metrics client errors as well as any other exception),
the wrapper still returns an envelope with status = error whose error
message is the translated descriptive string and whose metadata carries the
coarse error-kind tag — NotFoundError, KubernetesError,
PrometheusQueryError, PrometheusError, or the exception's own type name
(when that name is nonempty, as Python type names are).  Totality of
`toolHandler` is the model of "no exception propagates". -/
theorem toolHandler_translates_every_exception (α : Type) (e : PyExc)
    (ms : ℤ) (iso : String) (m name emsg : String) :
    (toolHandler (Except.error e : Except PyExc (ToolResponse α)) ms iso).status
        = ToolStatus.error ∧
    (toolHandler (Except.error e : Except PyExc (ToolResponse α)) ms iso).error
        = some (handlerMessage e) ∧
    handlerMessage (PyExc.otherExc name emsg) = "Unexpected error: " ++ emsg ∧
    metaLookup MetaKey.errorType
        (toolHandler (Except.error (PyExc.k8sNotFound m) :
          Except PyExc (ToolResponse α)) ms iso).metadata
        = some (MetaVal.s "NotFoundError") ∧
    metaLookup MetaKey.errorType
        (toolHandler (Except.error (PyExc.k8sClient m) :
          Except PyExc (ToolResponse α)) ms iso).metadata
        = some (MetaVal.s "KubernetesError") ∧
    metaLookup MetaKey.errorType
        (toolHandler (Except.error (PyExc.promQuery m) :
          Except PyExc (ToolResponse α)) ms iso).metadata
        = some (MetaVal.s "PrometheusQueryError") ∧
    metaLookup MetaKey.errorType
        (toolHandler (Except.error (PyExc.promClient m) :
          Except PyExc (ToolResponse α)) ms iso).metadata
        = some (MetaVal.s "PrometheusError") ∧
    (name ≠ "" →
      metaLookup MetaKey.errorType
        (toolHandler (Except.error (PyExc.otherExc name emsg) :
          Except PyExc (ToolResponse α)) ms iso).metadata
        = some (MetaVal.s name)) := by
  refine ⟨?_, ?_, rfl, ?_, ?_, ?_, ?_, ?_⟩
  · cases e <;>
      simp [toolHandler, ToolResponse.mkError, handlerErrorType]
  · cases e <;>
      simp [toolHandler, ToolResponse.mkError, handlerErrorType]
  · simp [toolHandler, ToolResponse.mkError, handlerErrorType,
      addExecutionMetadata, metaLookup]
  · simp [toolHandler, ToolResponse.mkError, handlerErrorType,
      addExecutionMetadata, metaLookup]
  · simp [toolHandler, ToolResponse.mkError, handlerErrorType,
      addExecutionMetadata, metaLookup]
  · simp [toolHandler, ToolResponse.mkError, handlerErrorType,
      addExecutionMetadata, metaLookup]
  · intro hname
    simp [toolHandler, ToolResponse.mkError, handlerErrorType,
      addExecutionMetadata, metaLookup, hname]

/-- C1 witness: the handler applied to a concrete unexpected exception. -/
theorem toolHandler_translates_every_exception_witness :
    metaLookup MetaKey.errorType
        (toolHandler (Except.error (PyExc.otherExc "ValueError" "boom") :
          Except PyExc (ToolResponse Unit)) 7 "2026-01-01").metadata
        = some (MetaVal.s "ValueError") ∧
    (toolHandler (Except.error (PyExc.otherExc "ValueError" "boom") :
        Except PyExc (ToolResponse Unit)) 7 "2026-01-01").status
        = ToolStatus.error :=
  ⟨(toolHandler_translates_every_exception Unit
      (PyExc.otherExc "ValueError" "boom") 7 "2026-01-01" "m" "ValueError"
      "boom").2.2.2.2.2.2.2 (by decide),
   (toolHandler_translates_every_exception Unit
      (PyExc.otherExc "ValueError" "boom") 7 "2026-01-01" "m" "ValueError"
      "boom").1⟩

/-- C2 counterexample: the success constructor passes a caller-supplied
warnings list through unchanged, so an envelope with status = success and
non-empty warnings is constructible, contradicting "a non-empty warnings
list implies status is partial or error". -/
theorem mkSuccess_nonempty_warnings_counterexample :
    (ToolResponse.mkSuccess (some "data") none (some ["w"])).status
        = ToolStatus.success ∧
    (ToolResponse.mkSuccess (some "data") none (some ["w"])).warnings ≠ [] := by
  decide

/-- C2 (amended): for every envelope produced by the three constructors,
the error message is present iff status = error, and then the result is
None and the warnings are empty; a partial envelope carries exactly the
caller's warnings; a success envelope carries the caller-supplied warnings
list, which defaults to empty only when the caller omits it — so non-empty
warnings imply status ∈ partial, error only for envelopes built without an
explicit warnings argument. -/
theorem toolResponse_constructor_invariants (α : Type) (res : Option α)
    (meta : Option (List (MetaKey × MetaVal))) (ws : Option (List String))
    (pws : List String) (msg : String) (ty : Option String) :
    ((ToolResponse.mkSuccess res meta ws).error.isSome ↔
        (ToolResponse.mkSuccess res meta ws).status = ToolStatus.error) ∧
    ((ToolResponse.mkPartialResp res pws meta).error.isSome ↔
        (ToolResponse.mkPartialResp res pws meta).status = ToolStatus.error) ∧
    (((ToolResponse.mkError msg ty meta : ToolResponse α)).error.isSome ↔
        ((ToolResponse.mkError msg ty meta : ToolResponse α)).status
          = ToolStatus.error) ∧
    ((ToolResponse.mkError msg ty meta : ToolResponse α)).error = some msg ∧
    ((ToolResponse.mkError msg ty meta : ToolResponse α)).result = none ∧
    ((ToolResponse.mkError msg ty meta : ToolResponse α)).warnings = [] ∧
    (ToolResponse.mkPartialResp res pws meta).warnings = pws ∧
    (ToolResponse.mkSuccess res meta ws).warnings = ws.getD [] := by
  refine ⟨?_, ?_, ?_, rfl, rfl, rfl, rfl, rfl⟩
  · simp [ToolResponse.mkSuccess]
  · simp [ToolResponse.mkPartialResp]
  · simp [ToolResponse.mkError]

/-- C5 counterexample: with a configured positive limit of 1 core and a
usage of exactly 0, the computed percent is the numeric 0, but the stored
`cpu_usage_percent`/`memory_usage_percent` field is None (the code guards
the rounding with Python truthiness, `round(p, 1) if p else None`),
contradicting "a numeric value (usage/limit × 100) otherwise". -/
theorem percentOfLimitField_counterexample :
    percentOfLimit 0 (some 1) = some 0 ∧
    percentOfLimitField 0 (some 1) = none := by
  decide

/-- C5 (amended): the stored percent field is None exactly when no positive
limit is configured or the computed percentage is zero; otherwise it is the
numeric usage/limit × 100 (rounded to one decimal).  The division is only
performed under the `0 < limit` guard, so it never divides by zero. -/
theorem percentOfLimitField_spec (usage : ℚ) (limit : Option ℚ) :
    percentOfLimitField usage limit =
      (match limit with
       | some l =>
           if 0 < l ∧ usage ≠ 0 then some (pyRound1 (usage / l * 100))
           else none
       | none => none) := by
  match limit with
  | none => rfl
  | some l =>
      simp only [percentOfLimitField, percentOfLimit]
      by_cases hl : 0 < l
      · have hl0 : l ≠ 0 := ne_of_gt hl
        by_cases hu : usage = 0
        · simp [hl, hu]
        · have : usage / l * 100 ≠ 0 := by
            simp [div_eq_zero_iff, hl0, hu]
          simp [hl, hu, this]
      · simp [hl]

/-- C7: the severity ladder of analyze_restart_patterns has exactly the
claimed boundaries — zero total restarts give "none", and otherwise the
rate thresholds are strict upper bounds 0.5, 2 and 6, so a rate of exactly
2.0 restarts per hour is classified "high", not "medium". -/
theorem restartSeverity_boundaries (total : ℕ) (lookback : ℚ) :
    (total = 0 → restartSeverity total lookback = "none") ∧
    (total ≠ 0 →
      (restartRatePerHour total lookback < 1 / 2 →
        restartSeverity total lookback = "low") ∧
      (1 / 2 ≤ restartRatePerHour total lookback →
        restartRatePerHour total lookback < 2 →
        restartSeverity total lookback = "medium") ∧
      (2 ≤ restartRatePerHour total lookback →
        restartRatePerHour total lookback < 6 →
        restartSeverity total lookback = "high") ∧
      (6 ≤ restartRatePerHour total lookback →
        restartSeverity total lookback = "critical")) ∧
    (restartRatePerHour total lookback = 2 → total ≠ 0 →
      restartSeverity total lookback = "high") := by
  refine ⟨?_, ?_, ?_⟩
  · intro h; simp [restartSeverity, h]
  · intro h
    refine ⟨fun h1 => ?_, fun h1 h2 => ?_, fun h1 h2 => ?_, fun h1 => ?_⟩ <;>
      · simp only [restartSeverity, if_neg h]
        split_ifs <;> first | rfl | linarith
  · intro h h0
    simp only [restartSeverity, if_neg h0]
    split_ifs <;> first | rfl | linarith [h.le, h.ge]

/-- C7 witness: the ladder evaluated at the boundary inputs — zero restarts
over one hour, and 2 restarts over a one-hour lookback (rate exactly
2.0/hr). -/
theorem restartSeverity_boundaries_witness :
    restartSeverity 0 3600 = "none" ∧ restartSeverity 2 3600 = "high" :=
  ⟨(restartSeverity_boundaries 0 3600).1 rfl,
   (restartSeverity_boundaries 2 3600).2.2 (by decide) (by decide)⟩

/-- C8: the namespace health score is exactly
max(0, running_ratio − min(1, total_restarts × 0.05)) for a non-empty
namespace; it always lies in [0, 1]; and an empty namespace scores exactly
1. -/
theorem healthScore_formula_and_bounds (pods : List NsPod) :
    0 ≤ healthScore pods ∧ healthScore pods ≤ 1 ∧
    (pods = [] → healthScore pods = 1) ∧
    (pods ≠ [] →
      healthScore pods =
        max 0 ((runningPods pods : ℚ) / (pods.length : ℚ) -
          min 1 ((nsTotalRestarts pods : ℚ) * (1 / 20)))) := by
  by_cases hp : pods = []
  · subst hp
    refine ⟨by norm_num [healthScore], by norm_num [healthScore],
      fun _ => rfl, fun h => absurd rfl h⟩
  · have hlen : 0 < pods.length := List.length_pos.mpr hp
    have hform : healthScore pods =
        max 0 ((runningPods pods : ℚ) / (pods.length : ℚ) -
          min 1 ((nsTotalRestarts pods : ℚ) * (1 / 20))) := by
      simp [healthScore, hlen]
    refine ⟨hform ▸ le_max_left _ _, ?_, fun h => absurd h hp, fun _ => hform⟩
    rw [hform]
    have hratio : (runningPods pods : ℚ) / (pods.length : ℚ) ≤ 1 := by
      rw [div_le_one (by exact_mod_cast hlen)]
      exact_mod_cast List.countP_le_length _
    have hpen : (0 : ℚ) ≤ min 1 ((nsTotalRestarts pods : ℚ) * (1 / 20)) := by
      refine le_min (by norm_num) ?_
      positivity
    have : (runningPods pods : ℚ) / (pods.length : ℚ) -
        min 1 ((nsTotalRestarts pods : ℚ) * (1 / 20)) ≤ 1 :=
      le_trans (by linarith) hratio
    exact max_le (by norm_num) this

/-- C8 witness: the empty namespace scores 1, and a namespace with one
running pod carrying one restart scores max(0, 1 − 0.05). -/
theorem healthScore_formula_and_bounds_witness :
    healthScore [] = 1 ∧
    healthScore [{ phase := "Running", containerRestarts := [1] }] =
      max 0 ((1 : ℚ) / 1 - min 1 (1 * (1 / 20))) :=
  ⟨(healthScore_formula_and_bounds []).2.2.1 rfl,
   by
    have := (healthScore_formula_and_bounds
      [{ phase := "Running", containerRestarts := [1] }]).2.2.2 (by decide)
    simpa [runningPods, nsTotalRestarts] using this⟩

/-- C10: analyze_restart_patterns leaves `pattern_detected` as None when
exactly 3 restart timestamps fall in the lookback window, and performs the
periodic/escalating/random interval classification (producing a label)
exactly when at least 4 timestamps are present. -/
theorem patternDetected_requires_four_timestamps (ts : List ℚ) :
    (ts.length = 3 → patternDetected ts = none) ∧
    (4 ≤ ts.length → (patternDetected ts).isSome = true) := by
  constructor
  · intro h
    simp [patternDetected, h]
  · intro h
    have h3 : 3 ≤ ts.length := by omega
    have h4 : 4 ≤ ts.length := h
    simp only [patternDetected, if_pos h3, if_pos h4]
    split <;> simp
    split <;> simp

/-- C10 witness: three timestamps give no pattern; four give one. -/
theorem patternDetected_requires_four_timestamps_witness :
    patternDetected [1, 2, 3] = none ∧
    (patternDetected [1, 2, 3, 4]).isSome = true :=
  ⟨(patternDetected_requires_four_timestamps [1, 2, 3]).1 (by decide),
   (patternDetected_requires_four_timestamps [1, 2, 3, 4]).2 (by decide)⟩

/-- Every name of the list occurs (single-quoted) inside the rendered
Python list body. -/
theorem strContains_pyStrListBody (names : List String) (n : String)
    (hn : n ∈ names) : strContains n (pyStrListBody names) := by
  induction names with
  | nil => cases hn
  | cons x rest ih =>
      cases rest with
      | nil =>
          have hx : n = x := by simpa using hn
          subst hx
          exact ⟨singleQuote.data, singleQuote.data, by
            simp [pyStrListBody, pyQuoted]⟩
      | cons y rest2 =>
          rcases List.mem_cons.mp hn with hx | hmem
          · subst hx
            refine ⟨singleQuote.data,
              singleQuote.data ++ (", ").data ++
                (pyStrListBody (y :: rest2)).data, ?_⟩
            simp [pyStrListBody, pyQuoted]
          · obtain ⟨a, b, hab⟩ := ih hmem
            refine ⟨(pyQuoted x ++ ", ").data ++ a, b, ?_⟩
            simp only [pyStrListBody]
            simp [hab]

/-- Every container name occurs inside the multiple-containers error
message. -/
theorem strContains_multiContainersMessage (names : List String)
    (n : String) (hn : n ∈ names) :
    strContains n (multiContainersMessage names) := by
  obtain ⟨a, b, hab⟩ := strContains_pyStrListBody names n hn
  refine ⟨("Pod has multiple containers: ").data ++ ("[").data ++ a,
    b ++ ("]").data ++ (". Please specify container_name.").data, ?_⟩
  simp [multiContainersMessage, pyStrList, hab]

/-- C9: get_container_logs with no container_name given resolves the name
automatically when the pod has exactly one container and returns the
(possibly truncated) logs for it; with more than one container it returns
an error envelope whose kind tag is "MultipleContainersError" and whose
message lists every container name. -/
theorem getContainerLogs_container_resolution
    (podName rawLogs : String) (podContainers : List String)
    (tailLines maxLogLines : ℕ) :
    (podContainers.length = 1 →
      (getContainerLogs podName none podContainers rawLogs tailLines
        maxLogLines).status ≠ ToolStatus.error ∧
      ((getContainerLogs podName none podContainers rawLogs tailLines
        maxLogLines).result.map (fun v => v.containerName))
        = podContainers.head? ∧
      ((getContainerLogs podName none podContainers rawLogs tailLines
        maxLogLines).result.map (fun v => v.logs))
        = some (truncateLogs rawLogs (min tailLines (maxLogLines * 5))).1) ∧
    (1 < podContainers.length →
      (getContainerLogs podName none podContainers rawLogs tailLines
        maxLogLines).status = ToolStatus.error ∧
      metaLookup MetaKey.errorType
        (getContainerLogs podName none podContainers rawLogs tailLines
          maxLogLines).metadata
        = some (MetaVal.s "MultipleContainersError") ∧
      (getContainerLogs podName none podContainers rawLogs tailLines
        maxLogLines).error
        = some (multiContainersMessage podContainers) ∧
      ∀ n ∈ podContainers,
        strContains n (multiContainersMessage podContainers)) := by
  constructor
  · intro h1
    obtain ⟨c, hc⟩ := List.length_eq_one.mp h1
    subst hc
    refine ⟨?_, ?_, ?_⟩
    · simp only [getContainerLogs, logsResponse]
      split
      · simp_all
      · split
        · split <;> simp_all
        · simp_all
    · simp only [getContainerLogs, logsResponse]
      norm_num
    · simp only [getContainerLogs, logsResponse]
      norm_num
  · intro h2
    have hnot : ¬ podContainers.length = 1 := by omega
    refine ⟨?_, ?_, ?_, fun n hn =>
      strContains_multiContainersMessage podContainers n hn⟩
    · simp [getContainerLogs, h2, ToolResponse.mkError]
    · simp [getContainerLogs, h2, ToolResponse.mkError, metaLookup]
    · simp [getContainerLogs, h2, ToolResponse.mkError]

/-- C9 witness: a two-container pod with no container_name yields the
MultipleContainersError envelope listing both names; a one-container pod
resolves to that container and returns the logs. -/
theorem getContainerLogs_container_resolution_witness :
    (getContainerLogs "p" none ["app", "sidecar"] "l1\nl2" 100 100).status
        = ToolStatus.error ∧
    metaLookup MetaKey.errorType
        (getContainerLogs "p" none ["app", "sidecar"] "l1\nl2" 100
          100).metadata
        = some (MetaVal.s "MultipleContainersError") ∧
    strContains "app" (multiContainersMessage ["app", "sidecar"]) ∧
    strContains "sidecar" (multiContainersMessage ["app", "sidecar"]) ∧
    ((getContainerLogs "p" none ["app"] "l1\nl2" 100 100).result.map
        (fun v => v.containerName)) = some "app" := by
  have hmulti := (getContainerLogs_container_resolution "p" "l1\nl2"
    ["app", "sidecar"] 100 100).2 (by decide)
  have hsingle := (getContainerLogs_container_resolution "p" "l1\nl2"
    ["app"] 100 100).1 (by decide)
  exact ⟨hmulti.1, hmulti.2.1,
    hmulti.2.2.2 "app" (by decide), hmulti.2.2.2 "sidecar" (by decide),
    by rw [hsingle.2.1]; rfl⟩

/-- C6: on any series with at least 4 samples (so that both quarter slices
are nonempty and the claimed comparison of quarter means is defined), the
trend classification is: volatile whenever the coefficient of variation
exceeds 0.5 (stated square-root-free: mean > 0 and mean² < 4·variance),
and otherwise stable/increasing/decreasing by the sign and size of the
percent change between the first-quarter and last-quarter means; the
volatile override holds for every series regardless of direction; and with
fewer than 2 (non-NaN) samples the tool returns a partial envelope with an
explanatory warning and no trend. -/
theorem trendDirection_classification (samples : List (ℚ × Option ℚ)) :
    (∀ values : List ℚ, 4 ≤ values.length →
      trendDirection values =
        (if coefficientOfVariationHigh values then TrendDirection.volatile
         else if |specChangePercent values| < 10 then TrendDirection.stable
         else if 0 < specChangePercent values then TrendDirection.increasing
         else TrendDirection.decreasing)) ∧
    (∀ values : List ℚ, coefficientOfVariationHigh values →
      trendDirection values = TrendDirection.volatile) ∧
    ((samples.filterMap (fun s => s.2)).length < 2 →
      (getResourceTrends samples).status = ToolStatus.partialResult ∧
      (getResourceTrends samples).result = some none ∧
      (getResourceTrends samples).warnings ≠ []) := by
  refine ⟨?_, ?_, ?_⟩
  · intro values h4
    have hq1 : 1 ≤ values.length / 4 :=
      (Nat.one_le_div_iff (by norm_num)).mpr h4
    have hq0 : ¬ values.length / 4 = 0 := by omega
    have hchange : changePercent values = some (specChangePercent values) := by
      simp only [changePercent, firstQuarterMean, lastQuarterMean,
        specChangePercent, hq0, if_false, ite_false]
      split_ifs <;> rfl
    simp only [trendDirection, hchange]
  · intro values hcv
    simp [trendDirection, hcv]
  · intro hlen
    by_cases hs : samples.length = 0
    · simp [getResourceTrends, hs, ToolResponse.mkPartialResp]
    · simp [getResourceTrends, hs, hlen, ToolResponse.mkPartialResp]

/-- C6 witness: a rising clean series classifies increasing, a
high-variance series classifies volatile, and a single-sample input gets a
partial response. -/
theorem trendDirection_classification_witness :
    trendDirection [1, 2, 3, 4] = TrendDirection.increasing ∧
    trendDirection [0, 0, 0, 0, 10] = TrendDirection.volatile ∧
    (getResourceTrends [(1, some 2)]).status = ToolStatus.partialResult := by
  refine ⟨?_, ?_, ?_⟩
  · rw [(trendDirection_classification []).1 [1, 2, 3, 4] (by decide)]
    decide
  · exact (trendDirection_classification []).2.1 [0, 0, 0, 0, 10] (by decide)
  · exact ((trendDirection_classification [(1, some 2)]).2.2 (by decide)).1

/-- Counting over indices equals counting over elements: the length of the
index filter over `range l.length` agrees with `countP` of the element
predicate. -/
theorem length_filter_range_getD {α : Type} (f : α → Bool) (d : α) :
    ∀ l : List α,
      ((List.range l.length).filter (fun i => f (l.getD i d))).length
        = l.countP f := by
  intro l
  induction l with
  | nil => simp
  | cons x xs ih =>
      rw [List.length_cons, List.range_succ_eq_map, List.filter_cons,
        List.countP_cons, List.filter_map]
      cases hfx : f x <;>
        · simp [hfx, Function.comp_def, List.getD_cons_succ] at ih ⊢
          omega

/-- C4 counterexample: on a series with eleven spikes whose most recent
spike sits at timestamp 55, the reported spike_times is the FIRST ten
spike timestamps — `spike_times[:10]` on a chronologically ascending list —
so the most recent spike timestamp 55 is not reported, refuting "the 10
most recent spike timestamps". -/
theorem spikeTimes_not_most_recent_counterexample :
    spikeCount manySpikesValues manySpikesTimes = 11 ∧
    (55 : ℚ) ∈ spikeTimesAll manySpikesValues manySpikesTimes ∧
    (∀ t ∈ spikeTimesAll manySpikesValues manySpikesTimes, t ≤ 55) ∧
    (55 : ℚ) ∉ spikeTimesReported manySpikesValues manySpikesTimes ∧
    spikeTimesReported manySpikesValues manySpikesTimes
      = [0, 1, 2, 3, 4, 5, 6, 7, 8, 9] := by
  decide

/-- C4 (amended): for every series (with at least as many timestamps as
values, as the tool always supplies), spike_count is exactly the number of
samples strictly exceeding mean + 2·stddev, and spike_times reports at
most 10 timestamps, namely the FIRST 10 spike timestamps in series order
(the earliest, not the most recent, when timestamps ascend); whenever
there are at most 10 spikes — in particular for a series with exactly one
outlier — every spike timestamp, in particular the outlier's, is
reported. -/
theorem spikeDetection_spec (values timestamps : List ℚ)
    (hle : values.length ≤ timestamps.length) :
    spikeCount values timestamps =
      values.countP
        (fun v => isSpikeValue (pyMean values) (pyVariance values) v) ∧
    spikeTimesReported values timestamps
      = (spikeTimesAll values timestamps).take 10 ∧
    (spikeTimesReported values timestamps).length ≤ 10 ∧
    (spikeCount values timestamps ≤ 10 →
      spikeTimesReported values timestamps
        = spikeTimesAll values timestamps) := by
  have hall : (spikeIndices values).filter
      (fun i => decide (i < timestamps.length)) = spikeIndices values := by
    refine List.filter_eq_self.mpr (fun i hi => ?_)
    have : i ∈ List.range values.length := List.mem_of_mem_filter hi
    have hil : i < values.length := List.mem_range.mp this
    simpa using lt_of_lt_of_le hil hle
  refine ⟨?_, rfl, ?_, ?_⟩
  · unfold spikeCount spikeTimesAll
    rw [hall, List.length_map]
    exact length_filter_range_getD _ 0 values
  · unfold spikeTimesReported
    simp
  · intro hc
    unfold spikeTimesReported
    exact List.take_of_length_le hc

/-- C4 witness: a six-sample series with the single outlier 9 at timestamp
5 — one spike, and the outlier's timestamp is reported. -/
theorem spikeDetection_spec_witness :
    spikeCount [0, 0, 0, 0, 0, 9] [0, 1, 2, 3, 4, 5] = 1 ∧
    spikeTimesReported [0, 0, 0, 0, 0, 9] [0, 1, 2, 3, 4, 5]
      = spikeTimesAll [0, 0, 0, 0, 0, 9] [0, 1, 2, 3, 4, 5] ∧
    (5 : ℚ) ∈ spikeTimesReported [0, 0, 0, 0, 0, 9] [0, 1, 2, 3, 4, 5] := by
  have h := spikeDetection_spec [0, 0, 0, 0, 0, 9] [0, 1, 2, 3, 4, 5]
    (by decide)
  exact ⟨by decide, h.2.2.2 (by decide), by decide⟩

/-- An event kept by the window filter has a window time at or after the
cutoff. -/
theorem keepInWindow_spec {cutoff : ℚ} {e : KEvent}
    (h : keepInWindow cutoff e = true) :
    ∃ t, eventWindowTime e = some t ∧ cutoff ≤ t := by
  unfold keepInWindow at h
  cases hw : eventWindowTime e with
  | none => rw [hw] at h; cases h
  | some t =>
      rw [hw] at h
      exact ⟨t, rfl, of_decide_eq_true h⟩

/-- For events with a window time, the sort key is that time. -/
theorem eventSortKey_of_windowTime {e : KEvent} {t : ℚ}
    (h : eventWindowTime e = some t) : eventSortKey e = (t : WithBot ℚ) := by
  unfold eventWindowTime at h
  unfold eventSortKey
  cases hl : e.lastTimestamp with
  | some u =>
      rw [hl] at h
      cases h
      rfl
  | none =>
      rw [hl] at h
      simp only at h ⊢
      rw [h]

/-- C3 counterexample: two matching events with the same last-seen
timestamp are both returned (no truncation, status success), but the
returned list [5, 5] is not strictly descending, refuting "sorted strictly
descending by last-seen timestamp". -/
theorem getRecentEvents_not_strictly_descending_counterexample :
    ((getRecentEvents
        [{ lastTimestamp := some 5, eventTime := none, etype := "Warning" },
         { lastTimestamp := some 5, eventTime := none, etype := "Normal" }]
        0 10 50).result.map (fun v => v.events.map (fun i => i.lastSeen)))
      = some [5, 5] ∧
    ¬ ([(5 : ℚ), 5].Pairwise (fun a b => b < a)) ∧
    (getRecentEvents
        [{ lastTimestamp := some 5, eventTime := none, etype := "Warning" },
         { lastTimestamp := some 5, eventTime := none, etype := "Normal" }]
        0 10 50).status = ToolStatus.success := by
  refine ⟨by decide, ?_, by decide⟩
  intro h
  have := List.rel_of_pairwise_cons h (List.mem_singleton.mpr rfl)
  exact absurd this (lt_irrefl 5)

/-- C3 (amended): the events tool returns its matching events sorted
descending (non-strictly: events sharing a last-seen timestamp may repeat
it) by last-seen timestamp, and whenever the count of events inside the
time window exceeds the configured maximum the result is capped to that
maximum with truncated = true, status = partial and a truncation warning;
without truncation, all matching events are returned with status =
success and no warnings. -/
theorem getRecentEvents_sorted_and_capped (events : List KEvent)
    (cutoff now : ℚ) (maxEvents : ℕ) :
    ((recentEventInfos events cutoff now maxEvents).map
        (fun i => i.lastSeen)).Pairwise (fun a b => b ≤ a) ∧
    (getRecentEvents events cutoff now maxEvents).result = some
      { events := recentEventInfos events cutoff now maxEvents
        totalCount := (recentEventInfos events cutoff now maxEvents).length
        warningCount := ((recentEventInfos events cutoff now
            maxEvents).filter (fun i => i.isWarning)).length
        truncated := decide
          (maxEvents < (eventsMatched events cutoff).length) } ∧
    (maxEvents < (eventsMatched events cutoff).length →
      (getRecentEvents events cutoff now maxEvents).status
          = ToolStatus.partialResult ∧
      (getRecentEvents events cutoff now maxEvents).warnings
          = [eventsTruncationWarning maxEvents] ∧
      (recentEventInfos events cutoff now maxEvents).length = maxEvents) ∧
    ((eventsMatched events cutoff).length ≤ maxEvents →
      (getRecentEvents events cutoff now maxEvents).status
          = ToolStatus.success ∧
      (getRecentEvents events cutoff now maxEvents).warnings = [] ∧
      recentEventInfos events cutoff now maxEvents
        = (eventsMatched events cutoff).map (toEventInfo now)) := by
  refine ⟨?_, rfl, ?_, ?_⟩
  · have hsorted : List.Sorted eventDescLE
        (List.insertionSort eventDescLE events) :=
      List.sorted_insertionSort eventDescLE events
    have hfil : (eventsMatched events cutoff).Pairwise eventDescLE :=
      List.Pairwise.sublist (List.filter_sublist _) hsorted
    have hlim : ((eventsMatched events cutoff).take maxEvents).Pairwise
        eventDescLE :=
      List.Pairwise.sublist (List.take_sublist _ _) hfil
    unfold recentEventInfos
    rw [List.map_map, List.pairwise_map]
    refine List.Pairwise.imp_of_mem ?_ hlim
    intro a b ha hb hab
    have hka : keepInWindow cutoff a = true :=
      (List.mem_filter.mp (List.mem_of_mem_take ha)).2
    have hkb : keepInWindow cutoff b = true :=
      (List.mem_filter.mp (List.mem_of_mem_take hb)).2
    obtain ⟨ta, hta, _⟩ := keepInWindow_spec hka
    obtain ⟨tb, htb, _⟩ := keepInWindow_spec hkb
    have hkey : eventSortKey b ≤ eventSortKey a := hab
    rw [eventSortKey_of_windowTime hta, eventSortKey_of_windowTime htb]
      at hkey
    simp only [Function.comp_apply, toEventInfo, hta, htb, Option.getD_some]
    exact_mod_cast hkey
  · intro h
    have hd : decide (maxEvents < (eventsMatched events cutoff).length)
        = true := decide_eq_true h
    refine ⟨?_, ?_, ?_⟩
    · simp [getRecentEvents, hd]
    · simp [getRecentEvents, hd]
    · simp only [recentEventInfos, List.length_map, List.length_take]
      omega
  · intro h
    have hd : decide (maxEvents < (eventsMatched events cutoff).length)
        = false := decide_eq_false (not_lt.mpr h)
    refine ⟨?_, ?_, ?_⟩
    · simp [getRecentEvents, hd]
    · simp [getRecentEvents, hd]
    · unfold recentEventInfos
      rw [List.take_of_length_le h]

/-- C3 witness: four events (one pair tied at timestamp 5) with cap 2 —
capped to 2, partial, warned — and the same events with cap 50 — all four
returned, success. -/
theorem getRecentEvents_sorted_and_capped_witness :
    ((recentEventInfos
        [{ lastTimestamp := some 5, eventTime := none, etype := "Warning" },
         { lastTimestamp := some 2, eventTime := some 100, etype := "Normal" },
         { lastTimestamp := none, eventTime := some 9, etype := "Normal" },
         { lastTimestamp := some 5, eventTime := none, etype := "Normal" }]
        0 10 50).map (fun i => i.lastSeen)).Pairwise (fun a b => b ≤ a) ∧
    (getRecentEvents
        [{ lastTimestamp := some 5, eventTime := none, etype := "Warning" },
         { lastTimestamp := some 2, eventTime := some 100, etype := "Normal" },
         { lastTimestamp := none, eventTime := some 9, etype := "Normal" },
         { lastTimestamp := some 5, eventTime := none, etype := "Normal" }]
        0 10 2).status = ToolStatus.partialResult ∧
    (recentEventInfos
        [{ lastTimestamp := some 5, eventTime := none, etype := "Warning" },
         { lastTimestamp := some 2, eventTime := some 100, etype := "Normal" },
         { lastTimestamp := none, eventTime := some 9, etype := "Normal" },
         { lastTimestamp := some 5, eventTime := none, etype := "Normal" }]
        0 10 2).length = 2 ∧
    (getRecentEvents
        [{ lastTimestamp := some 5, eventTime := none, etype := "Warning" },
         { lastTimestamp := some 2, eventTime := some 100, etype := "Normal" },
         { lastTimestamp := none, eventTime := some 9, etype := "Normal" },
         { lastTimestamp := some 5, eventTime := none, etype := "Normal" }]
        0 10 50).status = ToolStatus.success := by
  refine ⟨(getRecentEvents_sorted_and_capped _ 0 10 50).1, ?_, ?_,
    ((getRecentEvents_sorted_and_capped _ 0 10 50).2.2.2 (by decide)).1⟩
  · exact ((getRecentEvents_sorted_and_capped _ 0 10 2).2.2.1 (by decide)).1
  · exact ((getRecentEvents_sorted_and_capped _ 0 10 2).2.2.1 (by decide)).2.2

end ObserverMCP







